import Mathlib

/-!
Verification of the weather-assistant core in `src/find_weather.py`.

The file shallowly embeds the Python program: JSON values are an inductive
type, Python exceptions are an error type, the tool body
`get_weather_forecast` becomes a total function into `Except`, and the
Streamlit chat handler becomes a pure transcript-transforming function.
Machine details that no claim touches (raw-byte JSON parsing, Python
`float()` parsing of decimal strings, `str()` rendering of non-string JSON
values) are noted at their definitions.
-/

namespace FindWeather

/-- A parsed JSON value, the result of `res.json()` in the Python code. -/
inductive Json where
  | null : Json
  | bool : Bool → Json
  | num : Rat → Json
  | str : String → Json
  | arr : List Json → Json
  | obj : List (String × Json) → Json

/-- The Python exceptions that the embedded code can raise.
`valueError` is the typed failure raised at line 114 of the source
(`raise ValueError(...)`); the remaining constructors model exceptions that
Python raises implicitly (subscription of a missing key, indexing an empty
list, attribute access or conversion on a value of the wrong shape, and
pydantic field validation). -/
inductive PyError where
  | valueError : String → PyError
  | keyError : String → PyError
  | indexError : PyError
  | typeError : String → PyError
  | attributeError : String → PyError
  | validationError : String → PyError
deriving DecidableEq

/-- Python `data[k]` on a JSON value: the value when `data` is an object
containing `k`, `KeyError` when the key is absent, `TypeError` when `data`
is not a dict. -/
def pyIndexKey (j : Json) (k : String) : Except PyError Json :=
  match j with
  | .obj fields =>
      match fields.lookup k with
      | some v => .ok v
      | none => .error (.keyError k)
  | _ => .error (.typeError "value is not subscriptable by string")

/-- Python `data[i]` for a natural index: element `i` of a list, `IndexError`
past the end, `KeyError` on a dict (dict subscription with an absent integer
key), `TypeError` otherwise. -/
def pyIndexNat (j : Json) (i : Nat) : Except PyError Json :=
  match j with
  | .arr xs =>
      match xs[i]? with
      | some v => .ok v
      | none => .error .indexError
  | .obj _ => .error (.keyError (toString i))
  | _ => .error (.typeError "value is not subscriptable by integer")

/-- Python `str.capitalize` for ASCII text: the first character uppercased,
every later character lowercased. -/
def pyCapitalize (s : String) : String :=
  match s.data with
  | [] => ""
  | c :: cs => String.mk (c.toUpper :: cs.map Char.toLower)

/-- The attribute access `.capitalize()` at line 118: succeeds on a JSON
string, raises `AttributeError` on any other JSON value. -/
def pyCapitalizeJson : Json → Except PyError String
  | .str s => .ok (pyCapitalize s)
  | _ => .error (.attributeError "capitalize")

/-- Python `float(x)` at line 119 for the provider contract's shapes: a JSON
number passes through, any other value raises. (Python's `float` would also
parse a decimal string; the provider contract makes `main.temp` a number and
no behaviour verified here exercises a string there, so the string-parsing
branch is collapsed into the error case.) -/
def pyFloat : Json → Except PyError Rat
  | .num q => .ok q
  | _ => .error (.typeError "argument cannot be converted to float")

/-- Python `str()` as used by the f-string at line 114 on the result of
`data.get("message", ...)`. The provider error contract makes `message` a
string, which is rendered exactly; non-string values (never produced by the
provider) get an abbreviated structural rendering. -/
def pyStrOf : Json → String
  | .str s => s
  | .num q => toString q
  | .bool b => cond b "True" "False"
  | .null => "None"
  | .arr _ => "[...]"
  | .obj _ => "\x7b...\x7d"

/-- Lines 112-113: `data.get("message", "Unknown error")` rendered into the
f-string. Succeeds on any JSON object (falling back to `"Unknown error"`),
raises `AttributeError` when the body is not a dict (Python `.get` on a
non-dict). -/
def pyGetMessage (j : Json) : Except PyError String :=
  match j with
  | .obj fields =>
      match fields.lookup "message" with
      | some v => .ok (pyStrOf v)
      | none => .ok "Unknown error"
  | _ => .error (.attributeError "get")

/-- pydantic validation of the `location: str` field of `WeatherForecast`:
construction succeeds only when the supplied JSON value is a string
(pydantic v2 does not coerce numbers to `str`). -/
def pydanticValidateStr (j : Json) : Except PyError String :=
  match j with
  | .str s => .ok s
  | _ => .error (.validationError "location: input should be a valid string")

/-- The pydantic output schema of the tool (lines 73-76).  `float` carries no
arithmetic here — `main.temp` is passed through unchanged — so the field is
embedded as an exact rational. -/
structure WeatherForecast where
  location : String
  description : String
  temperature_celsius : Rat
deriving DecidableEq

/-- A provider HTTP response as the tool observes it: `res.status_code` and
the parsed `res.json()` body. (Parsing of the raw bytes is not modelled; all
claims concern JSON bodies.) -/
structure HttpResponse where
  status_code : Nat
  body : Json

/-- One outbound HTTP request as issued by `requests.get` (line 109):
method, URL, query parameters in order, and the timeout in seconds. -/
structure HttpRequest where
  method : String
  url : String
  params : List (String × String)
  timeout : Nat
deriving DecidableEq

/-- The single request built at lines 102-109: GET on the current-weather
endpoint with `q`, `appid`, `units=metric` and `timeout=15`. -/
def weatherRequest (city apiKey : String) : HttpRequest :=
  { method := "GET"
  , url := "https://api.openweathermap.org/data/2.5/weather"
  , params := [("q", city), ("appid", apiKey), ("units", "metric")]
  , timeout := 15 }

/-- The outbound-call trace of one invocation of `get_weather_forecast`:
the body contains exactly one `requests.get` call (line 109), in straight-line
code with no loop and no retry, so every invocation issues exactly this one
request. `apiKey` is the module-level `OPENWEATHER_API_KEY`. -/
def get_weather_forecast_calls (city apiKey : String) : List HttpRequest :=
  [weatherRequest city apiKey]

/-- Shallow embedding of the tool body `get_weather_forecast`
(lines 98-120), as a function of the provider response it receives for its
single request.  Mirrors the Python control flow: the non-200 branch builds
`msg` from `data.get("message", "Unknown error")` and raises the typed
`ValueError` mentioning the city; the 200 branch evaluates the three
constructor arguments in source order — `data["name"]`,
`data["weather"][0]["description"].capitalize()`,
`float(data["main"]["temp"])` — and then pydantic validates the fields.
`apiKey` flows only into the outbound request (see
`get_weather_forecast_calls`), never into the result. -/
def get_weather_forecast (city apiKey : String) (res : HttpResponse) :
    Except PyError WeatherForecast :=
  if res.status_code ≠ 200 then
    match pyGetMessage res.body with
    | .error e => .error e
    | .ok msg =>
        .error (.valueError
          ("Could not fetch weather for '" ++ city ++ "': " ++ msg))
  else do
    let nameJ ← pyIndexKey res.body "name"
    let w ← pyIndexKey res.body "weather"
    let w0 ← pyIndexNat w 0
    let dJ ← pyIndexKey w0 "description"
    let descr ← pyCapitalizeJson dJ
    let m ← pyIndexKey res.body "main"
    let tJ ← pyIndexKey m "temp"
    let temp ← pyFloat tJ
    let name ← pydanticValidateStr nameJ
    pure { location := name, description := descr, temperature_celsius := temp }

/-- Whether a raised exception is the tool's typed failure — the
`ValueError` carrying the human-readable message built at line 114 — as
opposed to an untyped Python exception escaping the tool body. -/
def errIsTypedFailure : Except PyError WeatherForecast → Bool
  | .error (.valueError _) => true
  | _ => false

/-- Modelled from the spec: the agent runtime's `run_sync` loop
(`pydantic_ai.Agent.run_sync`) is not part of this repository — `src/` holds
only the tool's declaration (the `@weather_agent.tool` decorator, line 98)
and the call site (line 158).  Per the spec, when the runtime decides to call
the tool it invokes it with a well-formed city argument, converts the tool's
outcome — a `ForecastRecord` or a `Failure` — into a tool-result, and
narrates it into the final text, so `run` always returns a string.
`narrate` abstracts the opaque LLM text composition over the tool-result
channel. -/
def agent_run_sync (narrate : Except PyError WeatherForecast → String)
    (city apiKey : String) (res : HttpResponse) : String :=
  narrate (get_weather_forecast city apiKey res)

/-- Python truthiness of an `os.getenv` result as tested by
`if not GROQ_API_KEY:` — `None` and the empty string are falsy. -/
def pyTruthyStr : Option String → Bool
  | none => false
  | some s => !s.isEmpty

/-- The startup credential checks (lines 17-24): the first falsy credential
raises a `RuntimeError` naming it, which escapes module initialisation and
refuses startup; otherwise startup proceeds. -/
def startupCheck (groqKey openweatherKey : Option String) :
    Except String Unit :=
  if !pyTruthyStr groqKey then
    .error "❌ GROQ_API_KEY not found in .env"
  else if !pyTruthyStr openweatherKey then
    .error "❌ OPENWEATHER_API_KEY not found in .env"
  else
    .ok ()

/-- One entry of the Streamlit transcript `st.session_state.messages`:
a role (`"user"` or `"assistant"`) and text content. -/
structure ChatMsg where
  role : String
  content : String
deriving DecidableEq

/-- The seeding of the transcript (lines 126-132): one synthetic assistant
greeting. -/
def initialMessages : List ChatMsg :=
  [{ role := "assistant"
   , content := "Hi 👋 Ask me about the weather in any city (e.g., *What's the weather in London?*)" }]

/-- Lines 126-132 as a function of the prior session state: the greeting is
seeded only when the `messages` key is absent from `st.session_state`;
an existing value — even the empty list — is kept unchanged. -/
def seedIfAbsent : Option (List ChatMsg) → List ChatMsg
  | none => initialMessages
  | some msgs => msgs

/-- The Clear-chat button handler (lines 65-67): sets
`st.session_state.messages = []` and reruns the script. -/
def clearChat (_msgs : List ChatMsg) : List ChatMsg := []

/-- One shell turn of the chat-input handler (lines 148-171), for a truthy
`user_input`: the user entry is appended first; then the `run_sync` outcome
— a returned answer, or a caught exception rendered as `"⚠️ " ++ str e` —
is appended as the assistant entry. -/
def runTurn (messages : List ChatMsg) (user_input : String)
    (runResult : Except String String) : List ChatMsg :=
  let withUser := messages ++ [{ role := "user", content := user_input }]
  match runResult with
  | .ok answer => withUser ++ [{ role := "assistant", content := answer }]
  | .error e => withUser ++ [{ role := "assistant", content := "⚠️ " ++ e }]

/-- Boolean substring test used to state "the message contains ...":
some suffix of `s` starts with `sub`. -/
def strContainsB (s sub : String) : Bool :=
  (List.range (s.data.length + 1)).any fun i => sub.data.isPrefixOf (s.data.drop i)

/-- Provider snapshot of concrete scenario 1: HTTP 200 for London. -/
def londonRes : HttpResponse :=
  { status_code := 200
  , body := .obj
      [ ("name", .str "London")
      , ("weather", .arr [.obj [("description", .str "light rain")]])
      , ("main", .obj [("temp", .num 14.2)]) ] }

/-- Provider snapshot of concrete scenario 2: HTTP 404 for a city the
provider does not know. -/
def notFoundRes : HttpResponse :=
  { status_code := 404
  , body := .obj [("message", .str "city not found")] }

/-- A 200 response whose body lacks the `name` field (the other two mapped
fields are present and well-typed). -/
def missingNameRes : HttpResponse :=
  { status_code := 200
  , body := .obj
      [ ("weather", .arr [.obj [("description", .str "light rain")]])
      , ("main", .obj [("temp", .num 14.2)]) ] }

/-- A 200 response whose description contains capital letters past the first
position. -/
def fogRes : HttpResponse :=
  { status_code := 200
  , body := .obj
      [ ("name", .str "New York")
      , ("weather", .arr [.obj [("description", .str "New York FOG")]])
      , ("main", .obj [("temp", .num 9)]) ] }

theorem string_data_append (s t : String) : (s ++ t).data = s.data ++ t.data := rfl

theorem strContainsB_of_parts (pre sub post s : String)
    (h : s.data = pre.data ++ (sub.data ++ post.data)) :
    strContainsB s sub = true := by
  unfold strContainsB
  rw [List.any_eq_true]
  refine ⟨pre.data.length, ?_, ?_⟩
  · rw [List.mem_range, h]
    simp only [List.length_append]
    omega
  · rw [h, List.drop_left' rfl, List.isPrefixOf_iff_prefix]
    exact List.prefix_append _ _

/-- Claim C5: after any shell turn — run success or run failure alike — the
transcript grows by exactly two entries, the user entry then one assistant
entry, and every prior entry is unchanged and keeps its original order. -/
theorem turn_appends_exactly_two (messages : List ChatMsg)
    (user_input : String) (runResult : Except String String) :
    (runTurn messages user_input runResult).length = messages.length + 2 ∧
    (runTurn messages user_input runResult).take messages.length = messages ∧
    ∃ a, runTurn messages user_input runResult =
      messages ++ [{ role := "user", content := user_input },
                   { role := "assistant", content := a }] := by
  have key : ∃ a, runTurn messages user_input runResult =
      messages ++ [{ role := "user", content := user_input },
                   { role := "assistant", content := a }] := by
    cases runResult with
    | ok answer => exact ⟨answer, by simp [runTurn]⟩
    | error e => exact ⟨"⚠️ " ++ e, by simp [runTurn]⟩
  obtain ⟨a, ha⟩ := key
  refine ⟨?_, ?_, ⟨a, ha⟩⟩
  · rw [ha]; simp
  · rw [ha]; exact List.take_left' rfl

/-- Claim C6: when either credential is absent (Python-falsy), startup is
refused with a message naming a missing credential; when only the weather
credential is unset the message names OPENWEATHER_API_KEY specifically and
does not name the LLM credential. -/
theorem startup_missing_credential_fatal (g w : Option String)
    (h : pyTruthyStr g = false ∨ pyTruthyStr w = false) :
    ∃ msg, startupCheck g w = .error msg ∧
      ((pyTruthyStr g = false ∧ strContainsB msg "GROQ_API_KEY" = true) ∨
       (pyTruthyStr g = true ∧ pyTruthyStr w = false ∧
         strContainsB msg "OPENWEATHER_API_KEY" = true ∧
         strContainsB msg "GROQ_API_KEY" = false)) := by
  cases hg : pyTruthyStr g with
  | false =>
      refine ⟨"❌ GROQ_API_KEY not found in .env", ?_, Or.inl ⟨rfl, by decide⟩⟩
      simp [startupCheck, hg]
  | true =>
      cases hw : pyTruthyStr w with
      | false =>
          refine ⟨"❌ OPENWEATHER_API_KEY not found in .env", ?_,
            Or.inr ⟨rfl, rfl, by decide, by decide⟩⟩
          simp [startupCheck, hg, hw]
      | true =>
          rw [hg, hw] at h
          simp at h

/-- Witness for C6 at the spec's concrete scenario 3: the LLM credential is
present, the weather credential unset. -/
theorem startup_missing_credential_fatal_witness :
    ∃ msg, startupCheck (some "groq-key") none = .error msg ∧
      ((pyTruthyStr (some "groq-key") = false ∧
          strContainsB msg "GROQ_API_KEY" = true) ∨
       (pyTruthyStr (some "groq-key") = true ∧ pyTruthyStr none = false ∧
         strContainsB msg "OPENWEATHER_API_KEY" = true ∧
         strContainsB msg "GROQ_API_KEY" = false)) :=
  startup_missing_credential_fatal (some "groq-key") none (Or.inr rfl)

/-- Claim C7: one invocation of the tool issues exactly one outbound GET to
the provider's current-weather endpoint, with query parameters q=city,
appid=credential, units=metric, a 15-second timeout inside the recommended
10-15 second band, and no retry (the trace has no second request). -/
theorem single_get_request_no_retry (city apiKey : String) :
    (get_weather_forecast_calls city apiKey).length = 1 ∧
    get_weather_forecast_calls city apiKey =
      [{ method := "GET"
       , url := "https://api.openweathermap.org/data/2.5/weather"
       , params := [("q", city), ("appid", apiKey), ("units", "metric")]
       , timeout := 15 }] ∧
    10 ≤ (weatherRequest city apiKey).timeout ∧
    (weatherRequest city apiKey).timeout ≤ 15 :=
  ⟨rfl, rfl, by simp [weatherRequest], by simp [weatherRequest]⟩

/-- Claim C8: the fetch outcome is a pure function of the city and the
provider snapshot — two calls with the same city against the same snapshot
produce ForecastRecords with identical field values; no state survives a
call. -/
theorem fetch_deterministic (city apiKey : String) (res res' : HttpResponse)
    (hsnap : res = res') (r r' : WeatherForecast)
    (h1 : get_weather_forecast city apiKey res = .ok r)
    (h2 : get_weather_forecast city apiKey res' = .ok r') :
    r.location = r'.location ∧ r.description = r'.description ∧
      r.temperature_celsius = r'.temperature_celsius := by
  subst hsnap
  rw [h1] at h2
  injection h2 with h
  subst h
  exact ⟨rfl, rfl, rfl⟩

/-- Witness for C8: the London snapshot fetched twice. -/
theorem fetch_deterministic_witness :
    ({ location := "London", description := "Light rain"
     , temperature_celsius := 14.2 } : WeatherForecast).location =
      ({ location := "London", description := "Light rain"
       , temperature_celsius := 14.2 } : WeatherForecast).location ∧
    ({ location := "London", description := "Light rain"
     , temperature_celsius := 14.2 } : WeatherForecast).description =
      ({ location := "London", description := "Light rain"
       , temperature_celsius := 14.2 } : WeatherForecast).description ∧
    ({ location := "London", description := "Light rain"
     , temperature_celsius := 14.2 } : WeatherForecast).temperature_celsius =
      ({ location := "London", description := "Light rain"
       , temperature_celsius := 14.2 } : WeatherForecast).temperature_celsius :=
  fetch_deterministic "London" "k" londonRes londonRes rfl _ _ rfl rfl

/-- Claim C9 counterexample: pressing Clear chat sets the transcript to the
empty list, and the rerun's seeding step does not restore the greeting
because the messages key is still present — the post-clear transcript is not
the seeded one-greeting transcript. -/
theorem clear_chat_not_reseeded :
    seedIfAbsent (some (clearChat initialMessages)) ≠ initialMessages := by
  simp [seedIfAbsent, clearChat, initialMessages]

/-- Claim C9 amended: the clear action resets the transcript to the empty
list (not the seeded state); the greeting is seeded only when the messages
key is absent, i.e. on a fresh session. -/
theorem clear_chat_resets_to_empty (msgs : List ChatMsg) :
    seedIfAbsent (some (clearChat msgs)) = [] := rfl

theorem except_bind_ok {α β : Type} {x : Except PyError α}
    {f : α → Except PyError β} {b : β}
    (h : x >>= f = Except.ok b) :
    ∃ a, x = Except.ok a ∧ f a = Except.ok b := by
  cases x with
  | ok a => exact ⟨a, rfl, h⟩
  | error e => exact Except.noConfusion h

theorem except_bind_error {α β : Type} {x : Except PyError α}
    {f : α → Except PyError β} {e : PyError}
    (h : x >>= f = Except.error e) :
    x = Except.error e ∨ ∃ a, x = Except.ok a ∧ f a = Except.error e := by
  cases x with
  | ok a => exact Or.inr ⟨a, rfl, h⟩
  | error e' =>
      left
      have : e' = e := Except.error.inj h
      rw [this]

theorem pyIndexKey_error_untyped (j : Json) (k : String) (e : PyError)
    (h : pyIndexKey j k = .error e) :
    errIsTypedFailure (.error e) = false := by
  cases j <;> simp [pyIndexKey] at h
  case obj fields =>
    cases hl : fields.lookup k with
    | some v => rw [hl] at h; exact absurd h (by simp)
    | none => rw [hl] at h; obtain rfl : PyError.keyError k = e := Except.error.inj h; rfl
  all_goals (subst h; rfl)

theorem pyIndexNat_error_untyped (j : Json) (i : Nat) (e : PyError)
    (h : pyIndexNat j i = .error e) :
    errIsTypedFailure (.error e) = false := by
  cases j <;> simp [pyIndexNat] at h
  case arr xs =>
    cases hl : xs[i]? with
    | some v => rw [hl] at h; exact absurd h (by simp)
    | none => rw [hl] at h; obtain rfl : PyError.indexError = e := Except.error.inj h; rfl
  all_goals (subst h; rfl)

theorem pyCapitalizeJson_error_untyped (j : Json) (e : PyError)
    (h : pyCapitalizeJson j = .error e) :
    errIsTypedFailure (.error e) = false := by
  cases j <;> simp [pyCapitalizeJson] at h
  all_goals (subst h; rfl)

theorem pyFloat_error_untyped (j : Json) (e : PyError)
    (h : pyFloat j = .error e) :
    errIsTypedFailure (.error e) = false := by
  cases j <;> simp [pyFloat] at h
  all_goals (subst h; rfl)

theorem pydanticValidateStr_error_untyped (j : Json) (e : PyError)
    (h : pydanticValidateStr j = .error e) :
    errIsTypedFailure (.error e) = false := by
  cases j <;> simp [pydanticValidateStr] at h
  all_goals (subst h; rfl)

/-- Evaluation of the 200 branch on a well-formed body (shared helper):
the record maps `name`, the capitalized `weather[0].description`, and
`main.temp`. -/
theorem fetch_success_eval (city apiKey n d : String) (t : Rat)
    (res : HttpResponse) (fields w0f mf : List (String × Json)) (ws : List Json)
    (hs : res.status_code = 200) (hb : res.body = .obj fields)
    (hname : fields.lookup "name" = some (.str n))
    (hweather : fields.lookup "weather" = some (.arr ws))
    (hw0 : ws[0]? = some (.obj w0f))
    (hdesc : w0f.lookup "description" = some (.str d))
    (hmain : fields.lookup "main" = some (.obj mf))
    (htemp : mf.lookup "temp" = some (.num t)) :
    get_weather_forecast city apiKey res =
      .ok { location := n, description := pyCapitalize d
          , temperature_celsius := t } := by
  simp only [get_weather_forecast]
  rw [if_neg (fun hne => hne hs), hb]
  simp [pyIndexKey, pyIndexNat, pyCapitalizeJson, pyFloat, pydanticValidateStr,
    hname, hweather, hw0, hdesc, hmain, htemp, bind, Except.bind, pure,
    Except.pure]

theorem pyCapitalize_data (d : String) :
    (pyCapitalize d).data =
      (match d.data with
       | [] => []
       | c :: cs => c.toUpper :: cs.map Char.toLower) := by
  cases hd : d.data with
  | nil => simp [pyCapitalize, hd]
  | cons c cs => simp [pyCapitalize, hd]

/-- Claim C2: a well-formed 200 provider response maps to the ForecastRecord
whose location is the provider's `name`, whose description is the provider's
`weather[0].description` capitalized, and whose temperature_celsius is
`main.temp`. -/
theorem fetch_success_maps_fields (city apiKey n d : String) (t : Rat)
    (res : HttpResponse) (fields w0f mf : List (String × Json)) (ws : List Json)
    (hs : res.status_code = 200) (hb : res.body = .obj fields)
    (hname : fields.lookup "name" = some (.str n))
    (hweather : fields.lookup "weather" = some (.arr ws))
    (hw0 : ws[0]? = some (.obj w0f))
    (hdesc : w0f.lookup "description" = some (.str d))
    (hmain : fields.lookup "main" = some (.obj mf))
    (htemp : mf.lookup "temp" = some (.num t)) :
    get_weather_forecast city apiKey res =
      .ok { location := n, description := pyCapitalize d
          , temperature_celsius := t } :=
  fetch_success_eval city apiKey n d t res fields w0f mf ws hs hb hname
    hweather hw0 hdesc hmain htemp

/-- Witness for C2 at the spec's concrete scenario 1: city London, body
name=London, weather[0].description="light rain", main.temp=14.2. -/
theorem fetch_success_maps_fields_witness :
    get_weather_forecast "London" "key" londonRes =
      .ok { location := "London", description := "Light rain"
          , temperature_celsius := 14.2 } := by
  have h := fetch_success_maps_fields "London" "key" "London" "light rain"
    14.2 londonRes _ _ _ _ rfl rfl rfl rfl rfl rfl rfl rfl
  exact h

/-- Claim C10: the stored description is the provider description with its
first character uppercased and every later character lowercased (Python
`str.capitalize`), not merely the first letter capitalized. -/
theorem fetch_description_fully_capitalized (city apiKey n d : String)
    (t : Rat) (res : HttpResponse) (fields w0f mf : List (String × Json))
    (ws : List Json)
    (hs : res.status_code = 200) (hb : res.body = .obj fields)
    (hname : fields.lookup "name" = some (.str n))
    (hweather : fields.lookup "weather" = some (.arr ws))
    (hw0 : ws[0]? = some (.obj w0f))
    (hdesc : w0f.lookup "description" = some (.str d))
    (hmain : fields.lookup "main" = some (.obj mf))
    (htemp : mf.lookup "temp" = some (.num t)) :
    ∃ r, get_weather_forecast city apiKey res = .ok r ∧
      r.description.data =
        (match d.data with
         | [] => []
         | c :: cs => c.toUpper :: cs.map Char.toLower) :=
  ⟨{ location := n, description := pyCapitalize d, temperature_celsius := t }
  , fetch_success_eval city apiKey n d t res fields w0f mf ws hs hb hname
      hweather hw0 hdesc hmain htemp
  , pyCapitalize_data d⟩

/-- Witness for C10: description `"New York FOG"` is stored as
`"New york fog"` — the interior capitals are lowercased. -/
theorem fetch_description_fully_capitalized_witness :
    ∃ r, get_weather_forecast "New York" "key" fogRes = .ok r ∧
      r.description = "New york fog" := by
  obtain ⟨r, hr, hd⟩ := fetch_description_fully_capitalized "New York" "key"
    "New York" "New York FOG" 9 fogRes _ _ _ _ rfl rfl rfl rfl rfl rfl rfl rfl
  refine ⟨r, hr, String.ext ?_⟩
  rw [hd]
  rfl

/-- Claim C3: every non-200 provider response makes fetch fail (never a
partial record); on a JSON-object error body the failure is the typed
ValueError whose message contains the requested city and, when the body has
a string `message` field, the provider's own message. -/
theorem fetch_non200_failure (city apiKey : String) (res : HttpResponse)
    (hs : res.status_code ≠ 200) :
    (∃ e, get_weather_forecast city apiKey res = .error e) ∧
    ∀ fields, res.body = .obj fields →
      ∃ msg, get_weather_forecast city apiKey res =
          .error (.valueError msg) ∧
        strContainsB msg city = true ∧
        ∀ m, fields.lookup "message" = some (.str m) →
          strContainsB msg m = true := by
  have hbranch : get_weather_forecast city apiKey res =
      match pyGetMessage res.body with
      | .error e => .error e
      | .ok msg =>
          .error (.valueError
            ("Could not fetch weather for '" ++ city ++ "': " ++ msg)) := by
    simp only [get_weather_forecast]
    rw [if_pos hs]
  constructor
  · cases hpg : pyGetMessage res.body with
    | error e => exact ⟨e, by rw [hbranch, hpg]⟩
    | ok m0 => exact ⟨.valueError _, by rw [hbranch, hpg]⟩
  · intro fields hb
    cases hl : fields.lookup "message" with
    | none =>
        refine ⟨"Could not fetch weather for '" ++ city ++ "': " ++
          "Unknown error", ?_, ?_, ?_⟩
        · rw [hbranch, hb]; simp [pyGetMessage, hl]
        · apply strContainsB_of_parts "Could not fetch weather for '" city
            ("': " ++ "Unknown error")
          simp [string_data_append, List.append_assoc]
        · intro m hm
          exact Option.noConfusion hm
    | some v =>
        refine ⟨"Could not fetch weather for '" ++ city ++ "': " ++
          pyStrOf v, ?_, ?_, ?_⟩
        · rw [hbranch, hb]; simp [pyGetMessage, hl]
        · apply strContainsB_of_parts "Could not fetch weather for '" city
            ("': " ++ pyStrOf v)
          simp [string_data_append, List.append_assoc]
        · intro m hm
          obtain rfl : v = .str m := Option.some.inj hm
          apply strContainsB_of_parts
            ("Could not fetch weather for '" ++ city ++ "': ") m ""
          simp [string_data_append, pyStrOf, List.append_assoc]

/-- Witness for C3 at the spec's concrete scenario 2: a 404 for
Nonexistentville with provider message "city not found". -/
theorem fetch_non200_failure_witness :
    ((∃ e, get_weather_forecast "Nonexistentville" "key" notFoundRes =
        .error e) ∧
     ∀ fields, notFoundRes.body = .obj fields →
       ∃ msg, get_weather_forecast "Nonexistentville" "key" notFoundRes =
           .error (.valueError msg) ∧
         strContainsB msg "Nonexistentville" = true ∧
         ∀ m, fields.lookup "message" = some (.str m) →
           strContainsB msg m = true) ∧
    ∀ m, [("message", Json.str "city not found")].lookup "message" =
        some (.str m) → m = "city not found" := by
  refine ⟨fetch_non200_failure "Nonexistentville" "key" notFoundRes
    (by simp [notFoundRes]), ?_⟩
  intro m hm
  exact (Json.str.inj (Option.some.inj hm)).symm

/-- Claim C1 (the runtime loop is modelled from the spec, see
`agent_run_sync`): whenever the tool invocation fails, `run` still returns a
string — the failure value reaches the narration as a tool-result instead of
escaping `run` as an unhandled error. -/
theorem run_narrates_tool_failure
    (narrate : Except PyError WeatherForecast → String)
    (city apiKey : String) (res : HttpResponse) (e : PyError)
    (h : get_weather_forecast city apiKey res = .error e) :
    agent_run_sync narrate city apiKey res = narrate (.error e) := by
  unfold agent_run_sync
  rw [h]

/-- Witness for C1: the 404 Nonexistentville snapshot with a fixed
narration. -/
theorem run_narrates_tool_failure_witness :
    agent_run_sync (fun _ => "Sorry, I could not fetch the weather there.")
      "Nonexistentville" "key" notFoundRes =
      "Sorry, I could not fetch the weather there." :=
  run_narrates_tool_failure
    (fun _ => "Sorry, I could not fetch the weather there.")
    "Nonexistentville" "key" notFoundRes
    (.valueError
      "Could not fetch weather for 'Nonexistentville': city not found")
    rfl

/-- Claim C4 counterexample: a 200 response whose body lacks `name` makes the
tool body raise the untyped `KeyError "name"` — not the typed ValueError
failure — so the claim that fetch always produces a typed Failure on a
missing field fails at this input. -/
theorem fetch_missing_name_untyped_error :
    get_weather_forecast "London" "key" missingNameRes =
      .error (.keyError "name") ∧
    errIsTypedFailure
      (get_weather_forecast "London" "key" missingNameRes) = false :=
  ⟨rfl, rfl⟩

/-- Claim C4 amended: on a 200 response, fetch never returns a ForecastRecord
unless the body supplies all three mapped fields (so no partial record is
possible), and every failure it produces on a 200 response is an untyped
Python exception (KeyError/IndexError/TypeError/AttributeError/pydantic
validation), never the typed ValueError failure. -/
theorem fetch_200_no_partial_record_and_untyped_errors
    (city apiKey : String) (res : HttpResponse)
    (h200 : res.status_code = 200) :
    (∀ r, get_weather_forecast city apiKey res = .ok r →
       ∃ nJ w w0 dJ mJ tJ,
         pyIndexKey res.body "name" = .ok nJ ∧
         pydanticValidateStr nJ = .ok r.location ∧
         pyIndexKey res.body "weather" = .ok w ∧
         pyIndexNat w 0 = .ok w0 ∧
         pyIndexKey w0 "description" = .ok dJ ∧
         pyCapitalizeJson dJ = .ok r.description ∧
         pyIndexKey res.body "main" = .ok mJ ∧
         pyIndexKey mJ "temp" = .ok tJ ∧
         pyFloat tJ = .ok r.temperature_celsius) ∧
    (∀ e, get_weather_forecast city apiKey res = .error e →
       errIsTypedFailure (.error e) = false) := by
  have hbranch : get_weather_forecast city apiKey res =
      (do
        let nameJ ← pyIndexKey res.body "name"
        let w ← pyIndexKey res.body "weather"
        let w0 ← pyIndexNat w 0
        let dJ ← pyIndexKey w0 "description"
        let descr ← pyCapitalizeJson dJ
        let m ← pyIndexKey res.body "main"
        let tJ ← pyIndexKey m "temp"
        let temp ← pyFloat tJ
        let name ← pydanticValidateStr nameJ
        pure { location := name, description := descr
             , temperature_celsius := temp }) := by
    simp only [get_weather_forecast]
    rw [if_neg (fun hne => hne h200)]
  constructor
  · intro r h
    rw [hbranch] at h
    obtain ⟨nameJ, hn, h⟩ := except_bind_ok h
    obtain ⟨w, hw, h⟩ := except_bind_ok h
    obtain ⟨w0, hw0, h⟩ := except_bind_ok h
    obtain ⟨dJ, hd, h⟩ := except_bind_ok h
    obtain ⟨descr, hdc, h⟩ := except_bind_ok h
    obtain ⟨m, hm, h⟩ := except_bind_ok h
    obtain ⟨tJ, ht, h⟩ := except_bind_ok h
    obtain ⟨temp, htp, h⟩ := except_bind_ok h
    obtain ⟨name, hnm, h⟩ := except_bind_ok h
    obtain rfl : ({ location := name, description := descr
                  , temperature_celsius := temp } : WeatherForecast) = r :=
      Except.ok.inj h
    exact ⟨nameJ, w, w0, dJ, m, tJ, hn, hnm, hw, hw0, hd, hdc, hm, ht, htp⟩
  · intro e h
    rw [hbranch] at h
    rcases except_bind_error h with h1 | ⟨nameJ, hn, h⟩
    · exact pyIndexKey_error_untyped _ _ _ h1
    rcases except_bind_error h with h1 | ⟨w, hw, h⟩
    · exact pyIndexKey_error_untyped _ _ _ h1
    rcases except_bind_error h with h1 | ⟨w0, hw0, h⟩
    · exact pyIndexNat_error_untyped _ _ _ h1
    rcases except_bind_error h with h1 | ⟨dJ, hd, h⟩
    · exact pyIndexKey_error_untyped _ _ _ h1
    rcases except_bind_error h with h1 | ⟨descr, hdc, h⟩
    · exact pyCapitalizeJson_error_untyped _ _ h1
    rcases except_bind_error h with h1 | ⟨m, hm, h⟩
    · exact pyIndexKey_error_untyped _ _ _ h1
    rcases except_bind_error h with h1 | ⟨tJ, ht, h⟩
    · exact pyIndexKey_error_untyped _ _ _ h1
    rcases except_bind_error h with h1 | ⟨temp, htp, h⟩
    · exact pyFloat_error_untyped _ _ h1
    rcases except_bind_error h with h1 | ⟨name, hnm, h⟩
    · exact pydanticValidateStr_error_untyped _ _ h1
    exact Except.noConfusion h

/-- Witness for the amended C4 at the London snapshot: the successful fetch
exhibits all three fields in the body. -/
theorem fetch_200_no_partial_record_witness :
    ∃ nJ w w0 dJ mJ tJ,
      pyIndexKey londonRes.body "name" = .ok nJ ∧
      pydanticValidateStr nJ = .ok "London" ∧
      pyIndexKey londonRes.body "weather" = .ok w ∧
      pyIndexNat w 0 = .ok w0 ∧
      pyIndexKey w0 "description" = .ok dJ ∧
      pyCapitalizeJson dJ = .ok "Light rain" ∧
      pyIndexKey londonRes.body "main" = .ok mJ ∧
      pyIndexKey mJ "temp" = .ok tJ ∧
      pyFloat tJ = .ok (14.2 : Rat) :=
  (fetch_200_no_partial_record_and_untyped_errors "London" "key" londonRes
      rfl).1
    { location := "London", description := "Light rain"
    , temperature_celsius := 14.2 } rfl

end FindWeather
